import Mathlib

/-!
Verification of the smartito orchestration core against its specification.

The definitions below are a shallow embedding of the Python sources:
  - `src/agents/data_analyst.py`   (parameter extraction, analyze_request, validate_query)
  - `src/agents/business_analyst.py` (clarification policy, synthesis verbosity switch)
  - `src/workflows/multi_agent_workflow.py` (state machine, routing, nodes)
  - `src/tools/database_tools.py` and `src/config/database.py` (query dispatch checks)

External collaborators (the LLM reasoning capability, the database) are modelled
as explicit inputs: their outputs are parameters of the embedded functions, so
theorems quantify over every possible collaborator behaviour.
-/

namespace Smartito

/-! ## String primitives modelling the Python string operations used by the source -/

/-- Python `str.lower`, restricted to ASCII letters plus the accented Spanish
letters that occur in the repository's phrase tables (enough for every string
this development evaluates). -/
def pyLowerChar (c : Char) : Char :=
  if 'A' ≤ c ∧ c ≤ 'Z' then Char.ofNat (c.toNat + 32)
  else if c = 'Á' then 'á'
  else if c = 'É' then 'é'
  else if c = 'Í' then 'í'
  else if c = 'Ó' then 'ó'
  else if c = 'Ú' then 'ú'
  else if c = 'Ñ' then 'ñ'
  else if c = 'Ü' then 'ü'
  else c

def pyLower (s : String) : String := String.mk (s.toList.map pyLowerChar)

/-- The whitespace class used by Python's `str.strip` and the regex class `\s`
(restricted to the whitespace characters that can occur in the strings of this
development). -/
def isPyWs (c : Char) : Bool := c == ' ' || c == '\t' || c == '\n' || c == '\r'

/-- Python `str.strip`. -/
def pyStrip (s : String) : String :=
  String.mk (((s.toList.dropWhile isPyWs).reverse.dropWhile isPyWs).reverse)

/-- `occursIn pat l`: `pat` occurs as a contiguous run inside `l`
(Python's `pat in s` on the underlying characters). -/
def occursIn (pat : List Char) : List Char → Bool
  | [] => pat.isEmpty
  | c :: cs => pat.isPrefixOf (c :: cs) || occursIn pat cs

/-- Python's `pat in s` substring test. -/
def strContains (s pat : String) : Bool := occursIn pat.toList s.toList

/-- Python's `s.startswith(pre)`. -/
def strStarts (s pre : String) : Bool := pre.toList.isPrefixOf s.toList

/-- Worker for `pyReplace`: fuel-indexed so the recursion is structural.  The
fuel is set to the input length, which suffices because every step consumes at
least one character of the input. -/
def pyReplaceAux (pat rep : List Char) : Nat → List Char → List Char
  | _, [] => []
  | 0, l => l
  | fuel+1, c :: cs =>
    if pat ≠ [] ∧ pat.isPrefixOf (c :: cs) then
      rep ++ pyReplaceAux pat rep fuel (List.drop (pat.length - 1) cs)
    else
      c :: pyReplaceAux pat rep fuel cs

/-- Python's `s.replace(pat, rep)`: replace every non-overlapping occurrence,
scanning left to right. -/
def pyReplace (s pat rep : String) : String :=
  String.mk (pyReplaceAux pat.toList rep.toList s.toList.length s.toList)

/-! ## Regex scanners

The extractor uses `re.findall` with a handful of fixed patterns.  Each pattern
is embedded as a position matcher (`try…At`, one attempt at the current
position) plus a left-to-right non-overlapping scan, which is exactly
`re.findall`'s semantics for these backtracking-free patterns. -/

/-- Strip the literal `lit` from the front of `l`, if present. -/
def matchLit (lit l : List Char) : Option (List Char) :=
  if lit.isPrefixOf l then some (l.drop lit.length) else none

/-- The regex `\s*`. -/
def skipWs (l : List Char) : List Char := l.dropWhile isPyWs

/-- The regex `\d{n}` (exactly `n` digits), returning the digits and the rest. -/
def takeExactDigits : Nat → List Char → Option (List Char × List Char)
  | 0, l => some ([], l)
  | _+1, [] => none
  | n+1, c :: cs =>
    if c.isDigit then
      match takeExactDigits n cs with
      | some (ds, rest) => some (c :: ds, rest)
      | none => none
    else none

/-- The regex character class `['"]`. -/
def isQuote (c : Char) : Bool := c == '\'' || c == '"'

def isUpperAZ (c : Char) : Bool := 'A' ≤ c && c ≤ 'Z'

/-- The regex class `\w` (restricted to ASCII, as in every string this
development evaluates). -/
def isWordChar (c : Char) : Bool := c.isAlphanum || c == '_'

/-- The capture `(\d{4}-\d{2}-\d{2})`. -/
def matchDateCapture (l : List Char) : Option (String × List Char) :=
  match takeExactDigits 4 l with
  | some (y, l1) =>
    match l1 with
    | '-' :: l2 =>
      match takeExactDigits 2 l2 with
      | some (m, l3) =>
        match l3 with
        | '-' :: l4 =>
          match takeExactDigits 2 l4 with
          | some (d, l5) => some (String.mk (y ++ '-' :: m ++ '-' :: d), l5)
          | none => none
        | _ => none
      | none => none
    | _ => none
  | none => none

/-- One attempt, at the current position, of the date-filter patterns of
`_extract_query_params_from_context`:
`lit1\s*op\s*['"](\d{4}-\d{2}-\d{2})['"]` when `op` is present (with
`lit1 = "date"`), and `lit1['"](\d{4}-\d{2}-\d{2})['"]` when it is not
(the `TO_DATE\(` pattern, where the quote follows immediately). -/
def tryDatePatAt (lit1 : List Char) (op : Option (List Char)) (l : List Char) :
    Option (String × List Char) :=
  match matchLit lit1 l with
  | none => none
  | some l1 =>
    let afterOp : Option (List Char) :=
      match op with
      | some o => (matchLit o (skipWs l1)).map skipWs
      | none => some l1
    match afterOp with
    | none => none
    | some l3 =>
      match l3 with
      | q :: l4 =>
        if isQuote q then
          match matchDateCapture l4 with
          | some (cap, l5) =>
            match l5 with
            | q2 :: l6 => if isQuote q2 then some (cap, l6) else none
            | [] => none
          | none => none
        else none
      | [] => none

/-- One attempt of `culture\s*=\s*['"]([A-Z]{2})['"]`. -/
def tryCultureAt (l : List Char) : Option (String × List Char) :=
  match matchLit "culture".toList l with
  | none => none
  | some l1 =>
    match matchLit ['='] (skipWs l1) with
    | none => none
    | some l2 =>
      match skipWs l2 with
      | q :: a :: b :: q2 :: rest =>
        if isQuote q && isUpperAZ a && isUpperAZ b && isQuote q2 then
          some (String.mk [a, b], rest)
        else none
      | _ => none

/-- One attempt of `field\s*=\s*['"](\w+)['"]` (used with `field = "device"`
and `field = "traffic_type"`). -/
def tryFieldWordAt (field : List Char) (l : List Char) : Option (String × List Char) :=
  match matchLit field l with
  | none => none
  | some l1 =>
    match matchLit ['='] (skipWs l1) with
    | none => none
    | some l2 =>
      match skipWs l2 with
      | q :: rest =>
        if isQuote q then
          let w := rest.takeWhile isWordChar
          let rest2 := rest.dropWhile isWordChar
          if w ≠ [] then
            match rest2 with
            | q2 :: rest3 => if isQuote q2 then some (String.mk w, rest3) else none
            | [] => none
          else none
        else none
      | [] => none

/-- `re.findall`: scan left to right, collecting non-overlapping matches.
Fuel-indexed (fuel = input length suffices: each step consumes at least one
character whether or not the position matches). -/
def findAllAux (tryFn : List Char → Option (String × List Char)) :
    Nat → List Char → List String
  | 0, _ => []
  | _, [] => []
  | fuel+1, c :: cs =>
    match tryFn (c :: cs) with
    | some (cap, rest) => cap :: findAllAux tryFn fuel rest
    | none => findAllAux tryFn fuel cs

def findAllDates (lit1 : String) (op : Option String) (s : String) : List String :=
  findAllAux (tryDatePatAt lit1.toList (op.map String.toList)) s.toList.length s.toList

def findAllCultures (s : String) : List String :=
  findAllAux tryCultureAt s.toList.length s.toList

def findAllFieldWords (field : String) (s : String) : List String :=
  findAllAux (tryFieldWordAt field.toList) s.toList.length s.toList

/-- First four digits of `l`, as the regex capture `(\d{4})`. -/
def takeYear4 (l : List Char) : Option String :=
  match takeExactDigits 4 l with
  | some (ds, _) => some (String.mk ds)
  | none => none

/-- One attempt of the month patterns of the extractor:
`month\s+(?:de\s+)?(\d{4})` when `withDe` is true and `month\s+(\d{4})`
otherwise.  When the optional `de\s+` group fails, the regex falls back to
matching the digits directly after the first whitespace run, which is what the
fallback to `takeYear4 l2` models. -/
def tryMonthAt (month : List Char) (withDe : Bool) (l : List Char) : Option String :=
  match matchLit month l with
  | none => none
  | some l1 =>
    match l1 with
    | c :: _ =>
      if isPyWs c then
        let l2 := skipWs l1
        let viaDe : Option String :=
          if withDe then
            match matchLit ['d', 'e'] l2 with
            | some l3 =>
              match l3 with
              | d :: _ => if isPyWs d then takeYear4 (skipWs l3) else none
              | [] => none
            | none => none
          else none
        match viaDe with
        | some y => some y
        | none => takeYear4 l2
      else none
    | [] => none

/-- `re.findall(pattern, s)[0]` for the month patterns: the leftmost match. -/
def findFirstMonthYear (month : List Char) (withDe : Bool) : List Char → Option String
  | [] => none
  | c :: cs =>
    match tryMonthAt month withDe (c :: cs) with
    | some y => some y
    | none => findFirstMonthYear month withDe cs

/-! ## Data model of `_extract_query_params_from_context` (src/agents/data_analyst.py)

The Python context argument is a nested `dict`; the structures below model
exactly the key paths the extractor reads.  An `Option` field models presence
of the corresponding key. -/

/-- One record of `debug_info["tool_results"]`.  `argsQuery = none` models a
record without an `"args"` key; `argsQuery = some q` models
`tool_result["args"].get("query", "")` returning `q` (so `some ""` also covers
an args dict without a `"query"` key, which the source treats the same because
the empty string is falsy). -/
structure ToolRecord where
  tool : String
  argsQuery : Option String
deriving DecidableEq

structure DebugInfo where
  tool_results : List ToolRecord
deriving DecidableEq

structure TechDetails where
  debug_info : Option DebugInfo
deriving DecidableEq

structure QuestionInterp where
  technical_details : Option TechDetails
deriving DecidableEq

/-- The context dict as read by the extractor: the nested
`context["question_interpretation"]` value (if the key is present) and
`context.get("original_question", "")`. -/
structure Context where
  question_interpretation : Option QuestionInterp
  original_question : String
deriving DecidableEq

/-- The extractor's result dict.  The Python code finally drops keys whose
list is empty (`formatted_params`); here an empty list represents an absent
key, so that step is the identity. -/
structure QueryParams where
  dates : List String
  cultures : List String
  devices : List String
  traffic_types : List String
  last_executed_queries : List String
  metrics_of_interest : List String
deriving DecidableEq

def emptyQueryParams : QueryParams :=
  { dates := [], cultures := [], devices := [], traffic_types := [],
    last_executed_queries := [], metrics_of_interest := [] }

/-- The agent's `self.conversation_memory` dict (written by `analyze_request`,
never read by the extractor).  Modelling it as an explicit argument makes the
extractor's independence from agent state a provable statement. -/
abbrev AgentMemory := List (String × String)

/-- The queries collected into `query_params["last_executed_queries"]`. -/
def lastExecutedQueries (ctx : Context) : List String :=
  match ctx.question_interpretation with
  | none => []
  | some qi =>
    match qi.technical_details with
    | none => []
    | some td =>
      match td.debug_info with
      | none => []
      | some di =>
        di.tool_results.foldl (fun acc tr =>
          if tr.tool = "sql_query" then
            match tr.argsQuery with
            | some q => if q ≠ "" then acc ++ [q] else acc
            | none => acc
          else acc) []

/-- Append each element of `xs` to `acc` unless already present
(the `if x not in list: list.append(x)` idiom). -/
def addNew (acc : List String) (xs : List String) : List String :=
  xs.foldl (fun a x => if x ∈ a then a else a ++ [x]) acc

/-- The five date-filter patterns, in source order. -/
def datePatterns : List (String × Option String) :=
  [("date", some ">="), ("date", some "<="), ("date", some "="),
   ("date", some "BETWEEN"), ("TO_DATE(", none)]

def metricsOfInterestTable : List String :=
  ["conversion_rate", "traffic", "payment_confirmation_loaded"]

/-- `countries_mapping`, in source (dict-insertion) order.  The identical
literal also appears in `analyze_request`'s forced-query narrowing. -/
def countriesMapping : List (String × String) :=
  [("chile", "CL"), ("brasil", "BR"), ("peru", "PE"), ("paraguay", "PY"),
   ("argentina", "AR"), ("colombia", "CO"), ("ecuador", "EC"), ("uruguay", "UY"),
   ("estados unidos", "US")]

def questionDevices : List String := ["desktop", "mobile", "móvil"]

/-- The `months` dict of the extractor, in source order. -/
def monthsTable : List (String × String) :=
  [("enero", "01"), ("febrero", "02"), ("marzo", "03"), ("abril", "04"),
   ("mayo", "05"), ("junio", "06"), ("julio", "07"), ("agosto", "08"),
   ("septiembre", "09"), ("octubre", "10"), ("noviembre", "11"), ("diciembre", "12"),
   ("january", "01"), ("february", "02"), ("march", "03"), ("april", "04"),
   ("may", "05"), ("june", "06"), ("july", "07"), ("august", "08"),
   ("september", "09"), ("october", "10"), ("november", "11"), ("december", "12")]

/-- Month processing for one `(month, month_num)` entry: both year patterns are
tried; the first match of each contributes an inclusive month range whose end
day is always `31` (the source comment says `# Simplified`). -/
def addMonthDates (oql : List Char) (p : String × String) (a : List String) : List String :=
  let step := fun (a : List String) (y : String) =>
    addNew a [y ++ "-" ++ p.2 ++ "-01", y ++ "-" ++ p.2 ++ "-31"]
  let a :=
    match findFirstMonthYear p.1.toList true oql with
    | some y => step a y
    | none => a
  match findFirstMonthYear p.1.toList false oql with
  | some y => step a y
  | none => a

/-- Shallow embedding of `DataAnalystAgent._extract_query_params_from_context`.
`_mem` mirrors `self`: the method reads nothing from the agent's mutable state.
`none` models `context=None` (Python returns the default empty dict then). -/
def extractQueryParamsFromContext (_mem : AgentMemory) (context : Option Context) :
    QueryParams :=
  match context with
  | none => emptyQueryParams
  | some ctx =>
    let queries := lastExecutedQueries ctx
    let dates := queries.foldl (fun acc q =>
      datePatterns.foldl (fun acc p => addNew acc (findAllDates p.1 p.2 q)) acc) []
    let cultures := queries.foldl (fun acc q =>
      if strContains q "culture" then addNew acc (findAllCultures q) else acc) []
    let devices := queries.foldl (fun acc q =>
      if strContains q "device" then addNew acc (findAllFieldWords "device" q) else acc) []
    let traffics := queries.foldl (fun acc q =>
      if strContains q "traffic_type" then addNew acc (findAllFieldWords "traffic_type" q)
      else acc) []
    let metrics := queries.foldl (fun acc q =>
      metricsOfInterestTable.foldl (fun a m =>
        if strContains (pyLower q) m ∧ m ∉ a then a ++ [m] else a) acc) []
    let oq := ctx.original_question
    if oq ≠ "" then
      let oql := pyLower oq
      let cultures := countriesMapping.foldl (fun a p =>
        if strContains oql p.1 ∧ p.2 ∉ a then a ++ [p.2] else a) cultures
      let devices := questionDevices.foldl (fun a d =>
        if strContains oql d then
          let nd := if d = "móvil" then "mobile" else d
          if nd ∉ a then a ++ [nd] else a
        else a) devices
      let dates := monthsTable.foldl (fun a p => addMonthDates oql.toList p a) dates
      { dates := dates, cultures := cultures, devices := devices,
        traffic_types := traffics, last_executed_queries := queries,
        metrics_of_interest := metrics }
    else
      { dates := dates, cultures := cultures, devices := devices,
        traffic_types := traffics, last_executed_queries := queries,
        metrics_of_interest := metrics }

/-! ## Conversation turns

The source accepts history entries both as dicts and as `(role, content)`
tuples and treats the two shapes identically wherever it branches on them, so
one record type models both. -/

structure Turn where
  role : String
  content : String
deriving DecidableEq

/-! ## Clarification policy (`BusinessAnalystAgent.ask_clarifying_questions`) -/

/-- `rejection_phrases`, in source order. -/
def rejectionPhrases : List String :=
  ["no quiero más clarificaciones",
   "no quiero más preguntas",
   "no quiero clarificación",
   "sin clarificaciones",
   "sin preguntas",
   "dame una respuesta directa",
   "responde directamente",
   "ya te expliqué",
   "ya lo dije",
   "por favor responde",
   "no más preguntas",
   "no i want",
   "don't ask",
   "general",
   "datos",
   "métricas",
   "resultados",
   "información"]

/-- The "include everything" words scanned in recent user turns. -/
def includeAllWords : List String := ["todo", "all", "ambos", "both"]

/-- The loop over the last three exchanges: counts assistant clarification
turns and returns early (`true` = return `[]`) on a user "include everything"
signal; after the loop, two or more clarifications also force `[]`. -/
def recentHistoryLoop : List Turn → Nat → Bool
  | [], count => decide (count ≥ 2)
  | e :: rest, count =>
    let content := pyLower e.content
    let count :=
      if e.role = "assistant" ∧
          (strContains content "clarification" ∨ strContains content "clarificación") then
        count + 1
      else count
    if e.role = "user" ∧ includeAllWords.any (fun w => strContains content w) then true
    else recentHistoryLoop rest count

/-- The history-based early exits of `ask_clarifying_questions` (active only
when the history has at least three entries). -/
def historyForcesNoClarification (hist : List Turn) : Bool :=
  if hist.length ≥ 3 then recentHistoryLoop (hist.drop (hist.length - 3)) 0
  else false

/-- Worker for `splitLines`: accumulate the current segment (reversed). -/
def splitLinesAux : List Char → List Char → List String
  | acc, [] => [String.mk acc.reverse]
  | acc, c :: cs =>
    if c = '\n' then String.mk acc.reverse :: splitLinesAux [] cs
    else splitLinesAux (c :: acc) cs

/-- Python's `response.content.split('\n')`. -/
def splitLines (s : String) : List String := splitLinesAux [] s.toList

/-- Shallow embedding of `BusinessAnalystAgent.ask_clarifying_questions`.
The LLM is an external capability; `capabilityResponse` is the text it returns
for the clarification prompt (the `except` branch, which also returns `[]`, is
subsumed by the empty-response case of the caller's contract). -/
def askClarifyingQuestions (user_question : String) (hist : List Turn)
    (capabilityResponse : String) : List String :=
  let uq := pyLower user_question
  if rejectionPhrases.any (fun p => strContains uq p) then []
  else if historyForcesNoClarification hist then []
  else if strContains (pyLower capabilityResponse) "no clarification needed" then []
  else (((splitLines capabilityResponse).map pyStrip).filter (fun q => q ≠ "")).take 3

/-! ## Verbosity switch (`BusinessAnalystAgent.synthesize_results`) -/

/-- The "wants details" phrase list (it appears verbatim three times in the
source: for dict history entries, tuple history entries, and the current
question). -/
def detailPhrases : List String :=
  ["más detalles", "más información", "explica", "explícame",
   "recomendaciones", "insights", "explain", "more details",
   "more information", "recommendations", "elaborate", "analyze"]

/-- The `user_wants_details` flag: the source loops over the **entire**
`conversation_history` (breaking at the first user entry containing a detail
phrase) and then also scans the current question; the net value is this
disjunction. -/
def userWantsDetails (user_question : String) (hist : List Turn) : Bool :=
  (hist.any (fun e =>
      e.role == "user" && detailPhrases.any (fun p => strContains (pyLower e.content) p))) ||
  detailPhrases.any (fun p => strContains (pyLower user_question) p)

inductive SynthesisMode
  | concise
  | detailed
deriving DecidableEq

/-- The prompt selected by `synthesize_results`: detailed iff
`user_wants_details` is set. -/
def selectSynthesisMode (user_question : String) (hist : List Turn) : SynthesisMode :=
  if userWantsDetails user_question hist then .detailed else .concise

/-! ## Query dispatch checks (src/tools/database_tools.py, src/config/database.py) -/

/-- The keyword list of `SQLQueryTool._run` — note: five keywords only. -/
def sqlToolDangerousOps : List String := ["drop", "delete", "truncate", "alter", "create"]

/-- The keyword list of `DataAnalystAgent.validate_query` — seven keywords. -/
def validateDangerousOps : List String :=
  ["drop", "delete", "truncate", "alter", "create", "insert", "update"]

/-- The validation inside `SQLQueryTool._run` before any database call:
`true` means the tool returns an error JSON and never calls `execute_query`. -/
def sqlToolRejects (query : String) : Bool :=
  let ql := pyStrip (pyLower query)
  sqlToolDangerousOps.any (fun d => strContains ql d)

/-- The checks in `RedshiftConnection.execute_query` before `cursor.execute`:
an empty (or all-whitespace) query and a query not starting with `select`
raise before anything reaches the database. -/
def executeQueryRejects (query : String) : Bool :=
  pyStrip query == "" || !(strStarts (pyStrip (pyLower query)) "select")

/-- A query text submitted to the `sql_query` tool reaches `cursor.execute`
iff it passes both layers. -/
def reachesExecution (query : String) : Bool :=
  !(sqlToolRejects query) && !(executeQueryRejects query)

/-- Result dict of `DataAnalystAgent.validate_query`. -/
inductive ValidateResult
  | invalid (error : String) (suggestions : String)
  | valid (message : String)
deriving DecidableEq

def ValidateResult.isAccepted : ValidateResult → Bool
  | .invalid _ _ => false
  | .valid _ => true

/-- Shallow embedding of `DataAnalystAgent.validate_query`.  This helper
implements the full seven-keyword plus table-reference rule — but no code in
the repository ever calls it. -/
def validateQuery (query : String) : ValidateResult :=
  let ql := pyStrip (pyLower query)
  let found := validateDangerousOps.filter (fun op => strContains ql op)
  if found ≠ [] then
    .invalid ("Query contains dangerous operations: " ++ String.intercalate ", " found)
      "Only SELECT queries are allowed for data analysis."
  else if !(strContains ql "funnels_resumido") then
    .invalid "Query must reference the funnels_resumido table"
      "Use 'amplitude.funnels_resumido' as the table name."
  else
    .valid "Query validation passed"

/-! ## Technical Analysis stage (`DataAnalystAgent.analyze_request`)

The reasoning capability is external: its response is a list of tool calls
(possibly empty).  The embedding records exactly which query texts are handed
to the `sql_query` tool's `invoke` during one `analyze_request` call. -/

/-- One tool call returned by the bound capability: its `name` and, for
`sql_query` calls, the `query` argument (`none`/`some ""` model a missing
argument, on which `invoke` raises — the attempt is still recorded and
counted by the source's `sql_query_executed` detection). -/
structure ToolCall where
  name : String
  argsQuery : Option String
deriving DecidableEq

/-- The default query of the tool-calls branch (source lines 450–464), used
when the capability called tools but none of them was `sql_query`. -/
def forcedDefaultQuery : String :=
  "\n                    SELECT \n                        date, \n                        culture, \n                        device, \n                        traffic_type,\n                        traffic,\n                        payment_confirmation_loaded,\n                        (CAST(payment_confirmation_loaded AS DECIMAL(18,2)) * 100.0 / NULLIF(traffic, 0)) as conversion_rate\n                    FROM \n                        amplitude.funnels_resumido\n                    WHERE \n                        date BETWEEN CURRENT_DATE - INTERVAL '30 days' AND CURRENT_DATE\n                    LIMIT 5\n                    "

/-- The default query of the no-tool-calls branch (source lines 570–584),
before keyword narrowing. -/
def noToolCallsDefaultQuery : String :=
  "\n                SELECT \n                    date, \n                    culture, \n                    device, \n                    traffic_type,\n                    traffic,\n                    payment_confirmation_loaded,\n                    (payment_confirmation_loaded * 100.0 / NULLIF(traffic, 0)) as conversion_rate\n                FROM \n                    amplitude.funnels_resumido\n                WHERE \n                    date BETWEEN CURRENT_DATE - INTERVAL '30 days' AND CURRENT_DATE\n                LIMIT 5\n                "

/-- The no-tool-calls branch narrows the default query by the first country
keyword found in the question (the `break` in the source) and then by a
device keyword, each via `str.replace` on the single `WHERE` token. -/
def defaultQueryNarrowed (business_question : String) : String :=
  let ql := pyLower business_question
  let dq := noToolCallsDefaultQuery
  let dq :=
    match countriesMapping.find? (fun p => strContains ql p.1) with
    | some p => pyReplace dq "WHERE" ("WHERE culture = '" ++ p.2 ++ "' AND")
    | none => dq
  if strContains ql "mobile" || strContains ql "móvil" then
    pyReplace dq "WHERE" "WHERE device = 'mobile' AND"
  else if strContains ql "desktop" || strContains ql "escritorio" then
    pyReplace dq "WHERE" "WHERE device = 'desktop' AND"
  else dq

/-- The sequence of query texts passed to `sql_query`'s `invoke` during one
`analyze_request` call, as a function of the tool calls returned by the bound
capability (`tcs`):
* no tool calls at all → exactly the narrowed default query;
* tool calls but no `sql_query` among them → the requested tools run, then the
  (un-narrowed) forced default query;
* otherwise → every requested `sql_query` call runs, in order. -/
def attemptedSqlQueries (business_question : String) (tcs : List ToolCall) : List String :=
  if tcs.isEmpty then [defaultQueryNarrowed business_question]
  else
    let sqlCalls := tcs.filter (fun tc => tc.name == "sql_query")
    if sqlCalls.isEmpty then [forcedDefaultQuery]
    else sqlCalls.map (fun tc => tc.argsQuery.getD "")

/-! ## Orchestrator state machine (src/workflows/multi_agent_workflow.py) -/

/-- The `WorkflowState` TypedDict.  Dict-valued stage outputs are modelled by
the component of the result the downstream code reads (the interpretation
text, the analysis text, the business response); `none` models the initial
empty dict. -/
structure WFState where
  user_question : String
  conversation_history : List Turn
  question_interpretation : Option String
  clarifying_questions : List String
  business_synthesis : Option String
  technical_analysis : Option String
  needs_clarification : Bool
  analysis_complete : Bool
  error_occurred : Bool
  error_message : String
  final_response : String
deriving DecidableEq

/-- The initial state built by `MultiAgentWorkflow.run`. -/
def initialState (question : String) (hist : List Turn) : WFState :=
  { user_question := question, conversation_history := hist,
    question_interpretation := none, clarifying_questions := [],
    business_synthesis := none, technical_analysis := none,
    needs_clarification := false, analysis_complete := false,
    error_occurred := false, error_message := "", final_response := "" }

/-- Outcome of `interpret_user_question`: `ok` carries the interpretation text
(`result["success"] == True`), `failed` the error message (the capability
raised; the agent catches and returns `success=False`). -/
inductive InterpretOutcome
  | ok (interpretation : String)
  | failed (error : String)
deriving DecidableEq

/-- Outcome of `analyze_request` as consumed by the workflow node. -/
inductive AnalysisOutcome
  | ok (analysis : String)
  | failed (error : String)
deriving DecidableEq

/-- Outcome of `synthesize_results` as consumed by the workflow node. -/
inductive SynthesisOutcome
  | ok (business_response : String)
  | failed (error : String)
deriving DecidableEq

/-- The external capability results consumed during one run.  Both agents
catch their own exceptions and convert them to `success=False` results, so the
workflow nodes' own `except` branches are unreachable and each node is a total
function of the state and these outcomes. -/
structure RunOracles where
  interp : InterpretOutcome
  clarifying : List String
  analysis : AnalysisOutcome
  synthesis : SynthesisOutcome
deriving DecidableEq

/-- Node `interpret_question` (`_interpret_question`). -/
def interpretQuestionNode (o : RunOracles) (s : WFState) : WFState :=
  match o.interp with
  | .ok interp =>
    { s with question_interpretation := some interp,
             clarifying_questions := o.clarifying,
             needs_clarification := decide (o.clarifying.length > 0) }
  | .failed err =>
    { s with error_occurred := true, error_message := err }

/-- `direct_answer_phrases` of `_check_clarification`. -/
def directAnswerPhrases : List String :=
  ["no quiero", "sin clarificaciones", "respuesta directa",
   "responde ya", "dame los datos", "no preguntes", "general"]

/-- The numbered clarification text built by `_check_clarification`. -/
def clarificationText (qs : List String) : String :=
  (qs.enum).foldl
    (fun acc p => acc ++ "\n" ++ toString (p.1 + 1) ++ ". " ++ p.2)
    "To answer accurately:"

/-- Node `check_clarification` (`_check_clarification`). -/
def checkClarificationNode (s : WFState) : WFState :=
  let questions := s.clarifying_questions
  let uq := pyLower s.user_question
  let force := directAnswerPhrases.any (fun p => strContains uq p)
  if force || questions.isEmpty then
    { s with needs_clarification := false, final_response := "Analizando su consulta..." }
  else
    { s with final_response := clarificationText questions }

/-- Node `perform_analysis` (`_perform_technical_analysis`). -/
def performAnalysisNode (o : RunOracles) (s : WFState) : WFState :=
  match o.analysis with
  | .ok analysisText =>
    { s with technical_analysis := some analysisText, analysis_complete := true }
  | .failed err =>
    { s with error_occurred := true, error_message := err }

/-- Node `synthesize_results` (`_synthesize_business_results`).  On failure it
sets only the error flag and message; it does **not** touch `final_response`. -/
def synthesizeNode (o : RunOracles) (s : WFState) : WFState :=
  match o.synthesis with
  | .ok resp =>
    { s with business_synthesis := some resp, final_response := resp }
  | .failed err =>
    { s with error_occurred := true, error_message := err }

/-- Node `handle_error` (`_handle_error`). -/
def handleErrorNode (s : WFState) : WFState :=
  { s with final_response :=
      "Error: " ++ s.error_message ++
      ". Please try rephrasing your question or be more specific about time periods, markets, or device types." }

inductive Route
  | clarify
  | analyze
  | error
deriving DecidableEq

/-- `direct_answer_indicators` of `_should_ask_clarification`, in source
order. -/
def directAnswerIndicators : List String :=
  ["no quiero", "respuesta directa", "dame", "necesito", "ahora", "ya",
   "por favor", "general", "without", "directly", "datos", "métricas",
   "resultados", "información", "tasa", "porcentaje", "conversión",
   "evolución", "tendencia", "quiero saber", "conocer"]

def metricsWords : List String :=
  ["conversión", "conversion", "tráfico", "traffic", "visitas", "visits", "rendimiento"]

def dimensionWords : List String :=
  ["chile", "brasil", "argentina", "colombia", "peru", "mobile", "desktop", "móvil"]

/-- `str(entry).lower()` contains `"clarific"` for a history entry: the
punctuation `str` adds around role and content cannot form the token, so this
is equivalent to checking role and content. -/
def turnMentionsClarific (e : Turn) : Bool :=
  strContains (pyLower e.role) "clarific" || strContains (pyLower e.content) "clarific"

/-- The conditional-edge function `_should_ask_clarification`.  In the source
`force_direct_answer` is initialised to `True` and every subsequent assignment
also writes `True`, which is mirrored literally here; the concluding
`elif needs_clarification: return "clarify"` branch is therefore unreachable.
(The source also writes `needs_clarification = False` on the forced path; the
write does not influence the returned label, which is all the graph consumes
from this function.) -/
def shouldAskClarification (s : WFState) : Route :=
  if s.error_occurred then .error
  else
    let force := true
    let force := if s.clarifying_questions.isEmpty then true else force
    let uq := pyLower s.user_question
    let force := if directAnswerIndicators.any (fun p => strContains uq p) then true else force
    let force :=
      if (metricsWords.any (fun m => strContains uq m)) &&
         (dimensionWords.any (fun d => strContains uq d)) then true else force
    let force :=
      if !s.conversation_history.isEmpty &&
         s.conversation_history.any turnMentionsClarific then true else force
    if force then .analyze
    else if s.needs_clarification then .clarify
    else .analyze

inductive AnalysisRoute
  | synthesize
  | error
deriving DecidableEq

/-- The conditional-edge function `_check_analysis_success`. -/
def checkAnalysisSuccess (s : WFState) : AnalysisRoute :=
  if s.error_occurred || !s.analysis_complete then .error else .synthesize

/-- One full run of the compiled graph, following its edges exactly:
`START → interpret_question`, a conditional edge to
`check_clarification` / `perform_analysis` / `handle_error`,
`check_clarification → END`, a conditional edge from `perform_analysis` to
`synthesize_results` / `handle_error`, and the unconditional edges
`synthesize_results → END` and `handle_error → END`.  Note there is **no**
edge from `synthesize_results` to `handle_error`. -/
def runWorkflow (o : RunOracles) (question : String) (hist : List Turn) : WFState :=
  let s := interpretQuestionNode o (initialState question hist)
  match shouldAskClarification s with
  | .clarify => checkClarificationNode s
  | .error => handleErrorNode s
  | .analyze =>
    let s := performAnalysisNode o s
    match checkAnalysisSuccess s with
    | .error => handleErrorNode s
    | .synthesize => synthesizeNode o s

/-! ## Calendar validity (context for the extractor's synthesized end dates) -/

def isLeapYear (y : Nat) : Bool := (y % 4 == 0 && y % 100 != 0) || y % 400 == 0

def daysInMonth (y m : Nat) : Nat :=
  if m = 2 then (if isLeapYear y then 29 else 28)
  else if m = 4 ∨ m = 6 ∨ m = 9 ∨ m = 11 then 30
  else 31

def isValidGregorianDate (y m d : Nat) : Bool :=
  1 ≤ m && m ≤ 12 && 1 ≤ d && d ≤ daysInMonth y m

/-! ## Concrete instances used by the theorems -/

/-- A previously executed query filtered to market CL and the August 2025
date range. -/
def clAugustQuery : String :=
  "SELECT * FROM amplitude.funnels_resumido WHERE culture = 'CL' AND date >= '2025-08-01' AND date <= '2025-08-31'"

/-- A context carrying the prior `sql_query` invocation record in the nested
shape the extractor's key path expects
(`context["question_interpretation"]["technical_details"]["debug_info"]["tool_results"]`). -/
def nestedShapeCtx : Context :=
  { question_interpretation := some ⟨some ⟨some ⟨[⟨"sql_query", some clAugustQuery⟩]⟩⟩⟩,
    original_question := "show me the full table" }

/-- The context actually passed by `_perform_technical_analysis`: it passes
`state["question_interpretation"]`, i.e. the result dict of
`interpret_user_question`, whose keys are `success`, `interpretation` and
`original_question` — it has **no** `question_interpretation` key, whatever
queries earlier turns executed. -/
def orchestratorCtx : Context :=
  { question_interpretation := none,
    original_question := "show me the full table" }

/-- Oracles for a run whose interpretation succeeds and whose clarification
policy returns one question. -/
def c1Oracles : RunOracles :=
  { interp := .ok "structured interpretation",
    clarifying := ["1. - Which time period do you mean?"],
    analysis := .ok "analysis text",
    synthesis := .ok "business response" }

/-- Oracles for a run where interpretation succeeds with no clarifying
questions, analysis succeeds, and the synthesis capability fails. -/
def c2Oracles : RunOracles :=
  { interp := .ok "structured interpretation of the question",
    clarifying := [],
    analysis := .ok "technical analysis text",
    synthesis := .failed "Failed to synthesize results" }

/-- A filler history turn containing no detail-request phrase. -/
def padTurn : Turn := ⟨"user", "hola"⟩

/-- Five-turn history whose first (out-of-window) entry asks for detail. -/
def historyWithOldDetailRequest : List Turn :=
  ⟨"user", "explain please"⟩ :: [padTurn, padTurn, padTurn, padTurn]

/-- Five-turn history identical to `historyWithOldDetailRequest` on its last
four entries, with a neutral first entry. -/
def historyWithoutDetailRequest : List Turn :=
  padTurn :: [padTurn, padTurn, padTurn, padTurn]

/-! ## Theorems -/

/-- Claim C1 (counterexample): a state with a successful interpretation
(`error_occurred = false`), a non-empty clarifying-question list
(`needs_clarification = true`) and a question text containing no
direct-answer phrase from either override list is routed to `analyze`, not to
`clarify` — the routing function forces a direct answer unconditionally. -/
theorem c1_clarify_route_unreachable :
    (interpretQuestionNode c1Oracles (initialState "abc" [])).error_occurred = false ∧
    (interpretQuestionNode c1Oracles (initialState "abc" [])).clarifying_questions ≠ [] ∧
    (interpretQuestionNode c1Oracles (initialState "abc" [])).needs_clarification = true ∧
    directAnswerIndicators.any (fun p => strContains (pyLower "abc") p) = false ∧
    directAnswerPhrases.any (fun p => strContains (pyLower "abc") p) = false ∧
    shouldAskClarification (interpretQuestionNode c1Oracles (initialState "abc" []))
      = Route.analyze := by
  decide

/-- Claim C1 (amended): whenever interpretation did not set the error flag,
the routing decision after the Interpreting stage is `analyze` — the
`clarify` branch of `_should_ask_clarification` is unreachable because
`force_direct_answer` is initialised to `True` and never reset. -/
theorem c1_route_is_analyze_without_error (s : WFState)
    (h : s.error_occurred = false) :
    shouldAskClarification s = Route.analyze := by
  simp [shouldAskClarification, h]

/-- Witness for `c1_route_is_analyze_without_error` at a concrete state. -/
theorem c1_route_witness :
    shouldAskClarification (initialState "abc" []) = Route.analyze :=
  c1_route_is_analyze_without_error _ rfl

/-- Claim C2 (code bug): in a run where interpretation and analysis succeed
but the Business Synthesis capability fails, the graph's unconditional edge
`synthesize_results → END` ends the run with `error_occurred = true` and
`final_response` still the empty string — the error-handling node never
executes and no non-empty final response is written. -/
theorem c2_synthesis_failure_leaves_final_response_empty :
    (runWorkflow c2Oracles "monthly report" []).error_occurred = true ∧
    (runWorkflow c2Oracles "monthly report" []).final_response = "" := by
  decide

/-- Claim C3 (counterexample): when the bound capability requests two
`sql_query` tool calls, the stage executes both — two query attempts in one
invocation, not exactly one. -/
theorem c3_two_queries_attempted :
    (attemptedSqlQueries "abc"
      [⟨"sql_query", some "SELECT 1"⟩, ⟨"sql_query", some "SELECT 2"⟩]).length = 2 := by
  decide

/-- Claim C3 (amended): every `analyze_request` invocation attempts at least
one `sql_query` execution; when the capability requests no `sql_query` call
the attempt count is exactly one, and when it returns no tool call at all the
single attempted query is the bounded default (30-day window, narrowed by
market/device keywords of the question). -/
theorem c3_at_least_one_query_attempted (q : String) (tcs : List ToolCall) :
    attemptedSqlQueries q tcs ≠ [] ∧
    (tcs.filter (fun tc => tc.name == "sql_query") = [] →
      (attemptedSqlQueries q tcs).length = 1) ∧
    (tcs = [] → attemptedSqlQueries q tcs = [defaultQueryNarrowed q]) := by
  cases tcs with
  | nil =>
    exact ⟨by simp [attemptedSqlQueries], fun _ => by simp [attemptedSqlQueries],
           fun _ => by simp [attemptedSqlQueries]⟩
  | cons t ts =>
    cases hf : (t :: ts).filter (fun tc => tc.name == "sql_query") with
    | nil =>
      refine ⟨?_, fun _ => ?_, fun hc => by cases hc⟩ <;>
        simp [attemptedSqlQueries, hf]
    | cons a as =>
      refine ⟨?_, fun hcontra => ?_, fun hc => by cases hc⟩
      · simp [attemptedSqlQueries, hf]
      · cases hcontra

/-- Witness for `c3_at_least_one_query_attempted`: with no tool calls, exactly
one query is attempted. -/
theorem c3_query_witness :
    (attemptedSqlQueries "conversion chile" []).length = 1 :=
  (c3_at_least_one_query_attempted "conversion chile" []).2.1 (by decide)

/-- Claim C4 (counterexample): the query `SELECT 1` omits the required
`funnels_resumido` table reference — the uncalled `validate_query` helper
would reject it — yet it passes both checks on the dispatch path and reaches
`cursor.execute`. -/
theorem c4_missing_table_query_dispatched :
    reachesExecution "SELECT 1" = true ∧
    strContains (pyLower "SELECT 1") "funnels_resumido" = false ∧
    (validateQuery "SELECT 1").isAccepted = false := by
  decide

/-- Claim C4 (amended): a query whose lowercased, stripped text contains any
of the five keywords drop/delete/truncate/alter/create is rejected by
`SQLQueryTool._run` before any database call; insert/update and the
table-reference rule are enforced only by the never-called `validate_query`. -/
theorem c4_dangerous_keywords_rejected (q : String)
    (h : sqlToolDangerousOps.any (fun d => strContains (pyStrip (pyLower q)) d) = true) :
    reachesExecution q = false := by
  simp [reachesExecution, sqlToolRejects, h]

/-- Witness for `c4_dangerous_keywords_rejected` at a concrete query. -/
theorem c4_reject_witness :
    reachesExecution "DROP TABLE amplitude.funnels_resumido" = false :=
  c4_dangerous_keywords_rejected _ (by decide)

/-- Claim C6 (counterexample): a history whose entry contains the explicit
rejection phrase "no más preguntas" does not force an empty result — the
rejection-phrase scan reads only the current question, so with a neutral
question the policy still returns whatever questions the capability
produced. -/
theorem c6_history_rejection_ignored :
    ("no más preguntas" ∈ rejectionPhrases) ∧
    askClarifyingQuestions "muestra la tabla completa"
        [⟨"user", "no más preguntas"⟩] "1. - ¿Qué periodo te interesa?"
      = ["1. - ¿Qué periodo te interesa?"] := by
  decide

/-- Claim C6 (amended): whenever the **current question** contains one of the
explicit rejection phrases, the clarification decision returns the empty
question list (hence `needs_clarification = false` downstream), for every
history and every capability response. -/
theorem c6_question_rejection_forces_empty (q : String) (hist : List Turn)
    (resp : String)
    (h : rejectionPhrases.any (fun p => strContains (pyLower q) p) = true) :
    askClarifyingQuestions q hist resp = [] := by
  simp [askClarifyingQuestions, h]

/-- Witness for `c6_question_rejection_forces_empty` at a concrete input. -/
theorem c6_rejection_witness :
    askClarifyingQuestions "no más preguntas" [] "1. - ¿Qué mercado?" = [] :=
  c6_question_rejection_forces_empty _ [] _ (by decide)

/-- Claim C7 (code bug): with the prior CL/August-2025 query recorded in the
nested shape the extractor expects, extraction recovers `CL` and both range
endpoints; but on the context the orchestrator's Technical Analysis node
actually passes (the interpretation result dict), extraction returns no
parameters at all. -/
theorem c7_orchestrator_context_yields_no_parameters :
    ((extractQueryParamsFromContext [] (some nestedShapeCtx)).cultures = ["CL"] ∧
     (extractQueryParamsFromContext [] (some nestedShapeCtx)).dates
       = ["2025-08-01", "2025-08-31"]) ∧
    extractQueryParamsFromContext [] (some orchestratorCtx) = emptyQueryParams := by
  decide

/-- Claim C8: parameter extraction is a pure function of its context argument
— its result is independent of the agent's mutable `conversation_memory`
(the only agent state earlier invocations can change), so equal inputs always
yield equal `ExtractedParameters`. -/
theorem c8_extraction_independent_of_agent_state
    (m₁ m₂ : AgentMemory) (ctx : Option Context) :
    extractQueryParamsFromContext m₁ ctx = extractQueryParamsFromContext m₂ ctx := rfl

/-- Claim C9 (counterexample): two histories that agree on the current
question and on their last four entries (the window the synthesis stage feeds
back to the capability) select different verbosity modes when the
out-of-window first entry of one contains a detail-request phrase. -/
theorem c9_out_of_window_entry_changes_mode :
    selectSynthesisMode "resumen" historyWithOldDetailRequest = SynthesisMode.detailed ∧
    selectSynthesisMode "resumen" historyWithoutDetailRequest = SynthesisMode.concise ∧
    historyWithOldDetailRequest.drop (historyWithOldDetailRequest.length - 4)
      = historyWithoutDetailRequest.drop (historyWithoutDetailRequest.length - 4) := by
  decide

/-- Claim C9 (amended): the verbosity switch scans the current question and
the **entire** conversation history — detailed mode is selected exactly when
some user entry anywhere in the history, or the question itself, contains a
detail-request phrase. -/
theorem c9_mode_scans_entire_history (q : String) (hist : List Turn) :
    selectSynthesisMode q hist = SynthesisMode.detailed ↔
      ((∃ e ∈ hist, e.role = "user" ∧
          ∃ p ∈ detailPhrases, strContains (pyLower e.content) p = true) ∨
       (∃ p ∈ detailPhrases, strContains (pyLower q) p = true)) := by
  have hsel : selectSynthesisMode q hist = SynthesisMode.detailed ↔
      userWantsDetails q hist = true := by
    unfold selectSynthesisMode
    cases h : userWantsDetails q hist <;> simp [h]
  rw [hsel]
  simp [userWantsDetails, List.any_eq_true, Bool.or_eq_true, Bool.and_eq_true]

/-- Claim C10: for every named month of the extractor's table, a question of
the form "month YYYY" yields the inclusive range (YYYY-MM-01, YYYY-MM-31),
with day 31 as the end date for every month; and 2025-02-31 — the end date
produced for February — is not a valid calendar date. -/
theorem c10_month_ranges_end_on_day_31 :
    (∀ p ∈ monthsTable,
      (extractQueryParamsFromContext [] (some ⟨none, p.1 ++ " 2025"⟩)).dates
        = ["2025-" ++ p.2 ++ "-01", "2025-" ++ p.2 ++ "-31"]) ∧
    isValidGregorianDate 2025 2 31 = false := by
  decide

/-- Witness for `c10_month_ranges_end_on_day_31` at February 2025. -/
theorem c10_february_witness :
    (extractQueryParamsFromContext [] (some ⟨none, "febrero 2025"⟩)).dates
      = ["2025-02-01", "2025-02-31"] :=
  c10_month_ranges_end_on_day_31.1 ("febrero", "02") (by decide)

end Smartito
